import Mathlib

/-!
Verification of the OverWatch V3 SCADA fault-current engine
(src/intg-overwatch.py) against its natural-language specification.

The Python source is shallowly embedded below.  Numeric quantities are
modelled as real numbers (ℝ), complex impedances as Mathlib's ℂ; Python's
round(x, n) is modelled as rounding x * 10^n to the nearest integer
(ties never occur at the values analysed here, so the tie-breaking rule
is irrelevant).  Dictionaries are modelled as functions returning Option,
with the same defaults as the corresponding dict.get calls.
-/

namespace OverWatch

/-- Python round(x, 2): round to 2 decimal places. -/
noncomputable def round2 (x : ℝ) : ℝ := ((round (100 * x) : ℤ) : ℝ) / 100

/-- Python round(x, 4): round to 4 decimal places. -/
noncomputable def round4 (x : ℝ) : ℝ := ((round (10000 * x) : ℤ) : ℝ) / 10000

/-- The network tree paths dict from PowerSystem._get_path_impedance:
dict lookup returning the list of named segments from bus 650 to the bus,
or none when the bus name is not a key. -/
def paths (bus : String) : Option (List String) :=
  match bus with
  | "650" => some []
  | "632" => some ["650-632"]
  | "633" => some ["650-632", "632-633"]
  | "634" => some ["650-632", "632-633", "633-634"]
  | "645" => some ["650-632", "632-645"]
  | "646" => some ["650-632", "632-645", "645-646"]
  | "671" => some ["650-632", "632-671"]
  | "680" => some ["650-632", "632-671", "671-680"]
  | "684" => some ["650-632", "632-671", "671-684"]
  | "611" => some ["650-632", "632-671", "671-684", "684-611"]
  | "652" => some ["650-632", "632-671", "671-684", "684-652"]
  | _ => none

/-- paths.get(bus_name, []) from the source. -/
def pathOf (bus : String) : List String := (paths bus).getD []

/-- The eleven bus names that are keys of both the paths dict and the
MapManager.nodes dict. -/
def knownBuses : List String :=
  ["650", "632", "633", "634", "645", "646", "671", "680", "684", "611", "652"]

/-- The path to B strictly extends the path to A: A's segment list is a
proper initial segment of B's. -/
def extendsPath (p q : List String) : Prop :=
  q.take p.length = p ∧ p.length < q.length

instance (p q : List String) : Decidable (extendsPath p q) := by
  unfold extendsPath; infer_instance

/-- The engine state created by PowerSystem.__init__ (all fields the
constructor stores on self). -/
structure PowerSystem where
  V_LL : ℝ
  S_base : ℝ
  F_Hz : ℝ
  V_LN : ℝ
  I_base : ℝ
  Z_base : ℝ
  Z_source : ℂ
  z1_pu_km : ℂ
  line_lengths : List (String × ℝ)

/-- PowerSystem.__init__: system parameters of the IEEE 13 node feeder. -/
noncomputable def initPS : PowerSystem :=
  let V_LL : ℝ := 13200
  let S_base : ℝ := 5e6
  let Z_base : ℝ := V_LL ^ 2 / S_base
  let MVA_SC : ℝ := 250e6
  let Z_source_mag : ℝ := S_base / MVA_SC
  { V_LL := V_LL
    S_base := S_base
    F_Hz := 60
    V_LN := V_LL / Real.sqrt 3
    I_base := S_base / (Real.sqrt 3 * V_LL)
    Z_base := Z_base
    Z_source := ⟨0.1 * Z_source_mag, 0.99 * Z_source_mag⟩
    z1_pu_km := (⟨0.19, 0.40⟩ : ℂ) / (Z_base : ℂ)
    line_lengths :=
      [("650-632", 2.0), ("632-633", 1.8), ("632-645", 1.5), ("632-671", 2.2),
       ("645-646", 1.0), ("671-680", 2.8), ("671-684", 1.4), ("684-611", 1.0),
       ("684-652", 1.2), ("633-634", 0.6)] }

/-- self.line_lengths.get(segment, 1.0) from _get_path_impedance. -/
noncomputable def lineLen (ps : PowerSystem) (seg : String) : ℝ :=
  (ps.line_lengths.lookup seg).getD 1.0

/-- PowerSystem._get_path_impedance: total impedance from bus 650 to the
target bus, accumulated segment by segment. -/
noncomputable def get_path_impedance (ps : PowerSystem) (bus : String) : ℂ :=
  (pathOf bus).foldl (fun z seg => z + ps.z1_pu_km * ((lineLen ps seg : ℝ) : ℂ)) 0

/-- Z_total = self.Z_source + Z_path in calculate_fault_current. -/
noncomputable def Z_total (ps : PowerSystem) (bus : String) : ℂ :=
  ps.Z_source + get_path_impedance ps bus

/-- The per-unit fault current of calculate_fault_current: 0 when the
denominator magnitude is under the 1e-6 floor, else 1 / abs(Z_total). -/
noncomputable def I_fault_pu (ps : PowerSystem) (bus : String) : ℝ :=
  if Complex.abs (Z_total ps bus) < 1e-6 then 0
  else 1.0 / Complex.abs (Z_total ps bus)

/-- I_fault_A = I_fault_pu * self.I_base. -/
noncomputable def I_fault_A (ps : PowerSystem) (bus : String) : ℝ :=
  I_fault_pu ps bus * ps.I_base

/-- The severity ladder of calculate_fault_current, applied to the
unrounded ampere value. -/
noncomputable def severity_of (I : ℝ) : String :=
  if I > 8000 then "CRITICAL"
  else if I > 5000 then "WARNING"
  else if I > 3000 then "CAUTION"
  else "INFO"

/-- The dict returned by calculate_fault_current. -/
structure FaultResult where
  magnitude : ℝ
  severity : String
  impedance_pu : ℝ
  type : String
  voltage_drop_pct : ℝ

/-- PowerSystem.calculate_fault_current(bus_name, fault_type). -/
noncomputable def calculate_fault_current (ps : PowerSystem) (bus ft : String) :
    FaultResult :=
  { magnitude := round2 (I_fault_A ps bus)
    severity := severity_of (I_fault_A ps bus)
    impedance_pu := round4 (Complex.abs (Z_total ps bus))
    type := ft
    voltage_drop_pct :=
      round2 (I_fault_pu ps bus * Complex.abs (get_path_impedance ps bus) * 100) }

/-- A method call on the engine object, as state passing: the method reads
self and writes nothing, so the post-state is the pre-state. -/
noncomputable def calcFC (ps : PowerSystem) (bus ft : String) :
    FaultResult × PowerSystem :=
  (calculate_fault_current ps bus ft, ps)

/-- One node record of MapManager.nodes. -/
structure MapNode where
  x : ℝ
  y : ℝ
  ntype : String
  voltage : ℝ
  name : String

/-- MapManager.nodes: the fixed anchor coordinates dict (none when the bus
name is not a key). -/
noncomputable def nodes (bus : String) : Option MapNode :=
  match bus with
  | "650" => some ⟨0, 0, "substation", 115, "Substation"⟩
  | "680" => some ⟨0, 5290, "load", 13.2, "End Node"⟩
  | "646" => some ⟨1215, 3005, "load", 13.2, "Load 646"⟩
  | "634" => some ⟨-1905, 3005, "transformer", 13.2, "XFM-1"⟩
  | "632" => some ⟨0, 2000, "junction", 13.2, "Junction 632"⟩
  | "633" => some ⟨-950, 3005, "junction", 13.2, "Junction 633"⟩
  | "645" => some ⟨600, 3005, "junction", 13.2, "Junction 645"⟩
  | "671" => some ⟨0, 3500, "junction", 13.2, "Junction 671"⟩
  | "684" => some ⟨800, 4200, "junction", 13.2, "Junction 684"⟩
  | "611" => some ⟨1400, 4500, "load", 13.2, "Load 611"⟩
  | "652" => some ⟨1200, 4800, "load", 13.2, "Load 652"⟩
  | _ => none

/-- The dict returned by Api.simulate_fault. -/
structure SimReport where
  id : String
  date : String
  time : String
  device : String
  x : ℝ
  y : ℝ
  distance : ℝ
  status : String
  severity : String
  fault_current : ℝ
  impedance : ℝ
  voltage_drop : ℝ
  fault_type : String

/-- Api.simulate_fault(bus_name, fault_type).  The two string arguments
now_hms and now_ymd stand for the datetime.now() formatted timestamps.
The coordinate lookup self.map_manager.nodes.get(bus_name, dict(x 0, y 0))
is modelled by taking (0, 0) when the bus is not a node key. -/
noncomputable def simulate_fault (now_hms now_ymd bus ft : String) : SimReport :=
  let result := calculate_fault_current initPS bus ft
  let xy : ℝ × ℝ :=
    match nodes bus with
    | some n => (n.x, n.y)
    | none => (0, 0)
  { id := "SIM-" ++ bus ++ "-" ++ now_hms
    date := now_ymd
    time := now_hms
    device := "Bus " ++ bus
    x := xy.1
    y := xy.2
    distance := 0
    status := "SIMULATED"
    severity := result.severity
    fault_current := result.magnitude
    impedance := result.impedance_pu
    voltage_drop := result.voltage_drop_pct
    fault_type := ft }

/-! ## Distance Locator (spec section 4.5)

Modelled from the spec: the Distance Locator (and the lookup tables it
scans) is described in spec sections 4.3 and 4.5 but is not present in this
repository's single source file; the definitions below follow the spec
words: restrict the matched table rows to distanceKm greater than or equal
to the origin sensor distance, pick the row whose reference-column current
is closest in absolute difference to the observed magnitude, break ties by
first occurrence in scan order, and return NotFound (none) when the
restricted row set is empty. -/

/-- Modelled from the spec: one row of a LookupTable,
(distanceKm, IaAmps, IbAmps, IcAmps). -/
structure LookupRow where
  distanceKm : ℚ
  iaAmps : ℚ
  ibAmps : ℚ
  icAmps : ℚ
  deriving DecidableEq, Repr

/-- Modelled from the spec: the forward scan picking the row whose
reference-column value is closest in absolute difference to the observed
magnitude; a later row replaces the current best only when strictly
closer, so ties go to the first occurrence. -/
def bestRow (ref : LookupRow → ℚ) (obs : ℚ) : List LookupRow → Option LookupRow
  | [] => none
  | r :: rs =>
    match bestRow ref obs rs with
    | none => some r
    | some b => if |ref b - obs| < |ref r - obs| then some b else some r

/-- Modelled from the spec: locate(classification, originSensorDistanceKm)
over a lookup table, with ref the classification's reference column and obs
the observed reference magnitude; returns the estimated distance together
with the observed magnitude, or none (NotFound) when no row is at or beyond
the origin sensor distance. -/
def locate (table : List LookupRow) (ref : LookupRow → ℚ) (obs origin : ℚ) :
    Option (ℚ × ℚ) :=
  let restricted := table.filter (fun r => origin ≤ r.distanceKm)
  match bestRow ref obs restricted with
  | none => none
  | some r => some (r.distanceKm, obs)

/-! ## Google Sheets data connector (DataConnector.fetch_data) -/

/-- One fault dict built by DataConnector.fetch_data from a CSV row. -/
structure FetchedFault where
  id : String
  date : String
  time : String
  device : String
  x : ℚ
  y : ℚ
  distance : ℚ
  fault_type : String
  status : String
  modified_by : String
  timestamp : String
  severity : String
  deriving DecidableEq, Repr

/-- The datetime.now() derived strings used inside fetch_data. -/
structure NowStamps where
  ymd : String
  hms : String
  iso : String
  deriving DecidableEq, Repr

/-- DataConnector state: self.cache and self.last_fetch. -/
structure Connector where
  cache : List FetchedFault
  last_fetch : Option String
  deriving DecidableEq, Repr

/-- Python substring membership, pat in s (for a nonempty pattern):
s.splitOn pat has at least two pieces exactly when pat occurs in s. -/
def strContains (s pat : String) : Bool := 2 ≤ (s.splitOn pat).length

/-- The body of the per-row try block of fetch_data.  A CSV row is a dict
from column names to cell strings; floatParse stands for Python float() and
returns none on ValueError, in which case the row is skipped.  Missing
Lat(x) and Long(y) cells default to 0 as in row.get(key, 0). -/
def parse_row (floatParse : String → Option ℚ) (now : NowStamps)
    (row : List (String × String)) : Option FetchedFault := do
  let report_id := ((row.lookup "ReportID").getD "UNKNOWN").trim
  let x_coord ← match row.lookup "Lat(x)" with
    | none => some (0 : ℚ)
    | some s => floatParse s
  let y_coord ← match row.lookup "Long(y)" with
    | none => some (0 : ℚ)
    | some s => floatParse s
  let fault_type := ((row.lookup "Fault Type").getD "").trim
  let status0 := (row.lookup "Status").getD ""
  let status := if status0 ≠ "" then status0.trim.toUpper else "ACTIVE FAULT"
  let sev0 :=
    if strContains fault_type "LLG" || strContains fault_type "Phase B-C" then
      "CRITICAL"
    else if strContains fault_type "SLG" || strContains fault_type "Phase A" then
      "WARNING"
    else "INFO"
  let sev := if status = "RESOLVED" then "INFO" else sev0
  some
    { id := report_id
      date := (row.lookup "Date").getD now.ymd
      time := (row.lookup "Time").getD now.hms
      device := "SimDev"
      x := x_coord
      y := y_coord
      distance := 0
      fault_type := fault_type
      status := if status ≠ "" then status else "ACTIVE FAULT"
      modified_by := ((row.lookup "Modified By").getD "").trim
      timestamp := now.iso
      severity := sev }

/-- The reader loop of fetch_data: rows are appended to data in order, a
row whose try block fails is skipped (continue). -/
def fetchLoop (floatParse : String → Option ℚ) (now : NowStamps)
    (rows : List (List (String × String))) (data : List FetchedFault) :
    List FetchedFault :=
  match rows with
  | [] => data
  | r :: rs =>
    match parse_row floatParse now r with
    | none => fetchLoop floatParse now rs data
    | some f => fetchLoop floatParse now rs (data ++ [f])

/-- DataConnector.fetch_data.  The resp argument is the outcome of the
requests.get call together with response handling: Except.error when any
exception is raised (the outer except branch), Except.ok with the parsed
CSV dict rows otherwise.  On success the cache and last_fetch are assigned
only after the whole loop has run; on error the method returns self.cache
and assigns nothing. -/
def fetch_data (floatParse : String → Option ℚ) (c : Connector)
    (resp : Except String (List (List (String × String)))) (now : NowStamps) :
    List FetchedFault × Connector :=
  match resp with
  | .error _ => (c.cache, c)
  | .ok rows =>
    let data := fetchLoop floatParse now rows []
    (data, { cache := data, last_fetch := some now.iso })

/-! ## Numeric facts about the engine at its constructed state -/

lemma normSq_650 : Complex.normSq (Z_total initPS "650") = 9901 / 25000000 := by
  simp [Z_total, get_path_impedance, pathOf, paths, lineLen, initPS, List.lookup,
        Complex.normSq_apply, Complex.add_re, Complex.add_im, Complex.mul_re, Complex.mul_im,
        Complex.div_re, Complex.div_im, Complex.re_ofNat, Complex.im_ofNat]
  norm_num

lemma normSq_632 : Complex.normSq (Z_total initPS "632") = 29569065973 / 14824012500000 := by
  simp [Z_total, get_path_impedance, pathOf, paths, lineLen, initPS, List.lookup,
        Complex.normSq_apply, Complex.add_re, Complex.add_im, Complex.mul_re, Complex.mul_im,
        Complex.div_re, Complex.div_im, Complex.re_ofNat, Complex.im_ofNat]
  norm_num

lemma normSq_645 : Complex.normSq (Z_total initPS "645") = 1917124251761 / 474368400000000 := by
  simp [Z_total, get_path_impedance, pathOf, paths, lineLen, initPS, List.lookup,
        Complex.normSq_apply, Complex.add_re, Complex.add_im, Complex.mul_re, Complex.mul_im,
        Complex.div_re, Complex.div_im, Complex.re_ofNat, Complex.im_ofNat]
  norm_num

lemma normSq_633 : Complex.normSq (Z_total initPS "633") = 538167980909 / 118592100000000 := by
  simp [Z_total, get_path_impedance, pathOf, paths, lineLen, initPS, List.lookup,
        Complex.normSq_apply, Complex.add_re, Complex.add_im, Complex.mul_re, Complex.mul_im,
        Complex.div_re, Complex.div_im, Complex.re_ofNat, Complex.im_ofNat]
  norm_num

lemma normSq_671 : Complex.normSq (Z_total initPS "671") = 69116220101 / 13176900000000 := by
  simp [Z_total, get_path_impedance, pathOf, paths, lineLen, initPS, List.lookup,
        Complex.normSq_apply, Complex.add_re, Complex.add_im, Complex.mul_re, Complex.mul_im,
        Complex.div_re, Complex.div_im, Complex.re_ofNat, Complex.im_ofNat]
  norm_num

lemma normSq_634 : Complex.normSq (Z_total initPS "634") = 688308913 / 122512500000 := by
  simp [Z_total, get_path_impedance, pathOf, paths, lineLen, initPS, List.lookup,
        Complex.normSq_apply, Complex.add_re, Complex.add_im, Complex.mul_re, Complex.mul_im,
        Complex.div_re, Complex.div_im, Complex.re_ofNat, Complex.im_ofNat]
  norm_num

lemma normSq_646 : Complex.normSq (Z_total initPS "646") = 34023509281 / 5856400000000 := by
  simp [Z_total, get_path_impedance, pathOf, paths, lineLen, initPS, List.lookup,
        Complex.normSq_apply, Complex.add_re, Complex.add_im, Complex.mul_re, Complex.mul_im,
        Complex.div_re, Complex.div_im, Complex.re_ofNat, Complex.im_ofNat]
  norm_num

lemma normSq_684 : Complex.normSq (Z_total initPS "684") = 240969491321 / 29648025000000 := by
  simp [Z_total, get_path_impedance, pathOf, paths, lineLen, initPS, List.lookup,
        Complex.normSq_apply, Complex.add_re, Complex.add_im, Complex.mul_re, Complex.mul_im,
        Complex.div_re, Complex.div_im, Complex.re_ofNat, Complex.im_ofNat]
  norm_num

lemma normSq_611 : Complex.normSq (Z_total initPS "611") = 1151519381 / 108900000000 := by
  simp [Z_total, get_path_impedance, pathOf, paths, lineLen, initPS, List.lookup,
        Complex.normSq_apply, Complex.add_re, Complex.add_im, Complex.mul_re, Complex.mul_im,
        Complex.div_re, Complex.div_im, Complex.re_ofNat, Complex.im_ofNat]
  norm_num

lemma normSq_652 : Complex.normSq (Z_total initPS "652") = 164578253473 / 14824012500000 := by
  simp [Z_total, get_path_impedance, pathOf, paths, lineLen, initPS, List.lookup,
        Complex.normSq_apply, Complex.add_re, Complex.add_im, Complex.mul_re, Complex.mul_im,
        Complex.div_re, Complex.div_im, Complex.re_ofNat, Complex.im_ofNat]
  norm_num

lemma normSq_680 : Complex.normSq (Z_total initPS "680") = 1380779480909 / 118592100000000 := by
  simp [Z_total, get_path_impedance, pathOf, paths, lineLen, initPS, List.lookup,
        Complex.normSq_apply, Complex.add_re, Complex.add_im, Complex.mul_re, Complex.mul_im,
        Complex.div_re, Complex.div_im, Complex.re_ofNat, Complex.im_ofNat]
  norm_num

lemma abs_bounds_of_normSq (z : ℂ) (a b : ℝ) (ha : 0 ≤ a) (hb : 0 ≤ b)
    (h1 : a ^ 2 < Complex.normSq z) (h2 : Complex.normSq z < b ^ 2) :
    a < Complex.abs z ∧ Complex.abs z < b := by
  have hsq := Complex.sq_abs z
  have hnn := Complex.abs.nonneg z
  constructor <;> nlinarith

lemma I_base_gt : (2186932 / 10000 : ℝ) < initPS.I_base := by
  have hs : Real.sqrt 3 < 1.7320509 :=
    (Real.sqrt_lt' (by norm_num)).2 (by norm_num)
  have hpos : (0 : ℝ) < Real.sqrt 3 := Real.sqrt_pos.2 (by norm_num)
  have : initPS.I_base = 5e6 / (Real.sqrt 3 * 13200) := by simp [initPS]
  rw [this]
  have h1 : (2186932 / 10000 : ℝ) * (Real.sqrt 3 * 13200) < 5e6 := by nlinarith
  exact (lt_div_iff (by positivity)).2 h1

lemma I_base_lt : initPS.I_base < (2186933 / 10000 : ℝ) := by
  have h3 : (1.7320508 : ℝ) ^ 2 < 3 := by norm_num
  have hs : (1.7320508 : ℝ) < Real.sqrt 3 := (Real.lt_sqrt (by norm_num)).2 h3
  have : initPS.I_base = 5e6 / (Real.sqrt 3 * 13200) := by simp [initPS]
  rw [this]
  have h1 : 5e6 < (2186933 / 10000 : ℝ) * (Real.sqrt 3 * 13200) := by nlinarith
  exact (div_lt_iff (by positivity)).2 h1

/-- Generic bound on the unrounded ampere value at a bus, from a rational
value of the squared denominator magnitude. -/
lemma I_fault_A_bounds (bus : String) (q za zb lo hi : ℝ)
    (hq : Complex.normSq (Z_total initPS bus) = q)
    (hza : 1e-6 < za) (hzb : 0 < zb) (hlo : 0 ≤ lo)
    (h1 : za ^ 2 < q) (h2 : q < zb ^ 2)
    (hlo2 : lo * zb < 2186932 / 10000) (hhi2 : 2186933 / 10000 < hi * za) :
    lo < I_fault_A initPS bus ∧ I_fault_A initPS bus < hi := by
  have hza0 : (0 : ℝ) ≤ za := le_of_lt (lt_trans (by norm_num) hza)
  have key := abs_bounds_of_normSq (Z_total initPS bus) za zb hza0 (le_of_lt hzb)
    (hq ▸ h1) (hq ▸ h2)
  have habs_pos : (0 : ℝ) < Complex.abs (Z_total initPS bus) :=
    lt_trans (lt_trans (by norm_num) hza) key.1
  have hguard : ¬ Complex.abs (Z_total initPS bus) < 1e-6 :=
    not_lt.2 (le_of_lt (lt_trans hza key.1))
  have hIA : I_fault_A initPS bus = initPS.I_base / Complex.abs (Z_total initPS bus) := by
    rw [I_fault_A, I_fault_pu, if_neg hguard]; ring
  have hbgt := I_base_gt
  have hblt := I_base_lt
  rw [hIA]
  constructor
  · rw [lt_div_iff habs_pos]
    have : lo * Complex.abs (Z_total initPS bus) ≤ lo * zb :=
      mul_le_mul_of_nonneg_left (le_of_lt key.2) hlo
    linarith
  · rw [div_lt_iff habs_pos]
    have hhipos : (0 : ℝ) < hi := by nlinarith
    have : hi * za ≤ hi * Complex.abs (Z_total initPS bus) :=
      mul_le_mul_of_nonneg_left (le_of_lt key.1) (le_of_lt hhipos)
    linarith

lemma I_650 : (1098919 / 100 : ℝ) < I_fault_A initPS "650" ∧
    I_fault_A initPS "650" < (54946 / 5 : ℝ) :=
  I_fault_A_bounds "650" (9901 / 25000000) (19900753 / 1000000000) (9950377 / 500000000)
    (1098919 / 100) (54946 / 5) normSq_650 (by norm_num) (by norm_num) (by norm_num)
    (by norm_num) (by norm_num) (by norm_num) (by norm_num)

lemma I_632 : (97933 / 20 : ℝ) < I_fault_A initPS "632" ∧
    I_fault_A initPS "632" < (244833 / 50 : ℝ) :=
  I_fault_A_bounds "632" (29569065973 / 14824012500000) (5582721 / 125000000)
    (44661769 / 1000000000) (97933 / 20) (244833 / 50) normSq_632 (by norm_num)
    (by norm_num) (by norm_num) (by norm_num) (by norm_num) (by norm_num) (by norm_num)

lemma I_645 : (344007 / 100 : ℝ) < I_fault_A initPS "645" ∧
    I_fault_A initPS "645" < (86002 / 25 : ℝ) :=
  I_fault_A_bounds "645" (1917124251761 / 474368400000000) (31786101 / 500000000)
    (63572203 / 1000000000) (344007 / 100) (86002 / 25) normSq_645 (by norm_num)
    (by norm_num) (by norm_num) (by norm_num) (by norm_num) (by norm_num) (by norm_num)

lemma I_633 : (324641 / 100 : ℝ) < I_fault_A initPS "633" ∧
    I_fault_A initPS "633" < (162321 / 50 : ℝ) :=
  I_fault_A_bounds "633" (538167980909 / 118592100000000) (67364493 / 1000000000)
    (33682247 / 500000000) (324641 / 100) (162321 / 50) normSq_633 (by norm_num)
    (by norm_num) (by norm_num) (by norm_num) (by norm_num) (by norm_num) (by norm_num)

lemma I_671 : (301961 / 100 : ℝ) < I_fault_A initPS "671" ∧
    I_fault_A initPS "671" < (150981 / 50 : ℝ) :=
  I_fault_A_bounds "671" (69116220101 / 13176900000000) (36212071 / 500000000)
    (72424143 / 1000000000) (301961 / 100) (150981 / 50) normSq_671 (by norm_num)
    (by norm_num) (by norm_num) (by norm_num) (by norm_num) (by norm_num) (by norm_num)

lemma I_634 : (58353 / 20 : ℝ) < I_fault_A initPS "634" ∧
    I_fault_A initPS "634" < (145883 / 50 : ℝ) :=
  I_fault_A_bounds "634" (688308913 / 122512500000) (74955153 / 1000000000)
    (37477577 / 500000000) (58353 / 20) (145883 / 50) normSq_634 (by norm_num)
    (by norm_num) (by norm_num) (by norm_num) (by norm_num) (by norm_num) (by norm_num)

lemma I_646 : (14346 / 5 : ℝ) < I_fault_A initPS "646" ∧
    I_fault_A initPS "646" < (286921 / 100 : ℝ) :=
  I_fault_A_bounds "646" (34023509281 / 5856400000000) (1905523 / 25000000)
    (76220921 / 1000000000) (14346 / 5) (286921 / 100) normSq_646 (by norm_num)
    (by norm_num) (by norm_num) (by norm_num) (by norm_num) (by norm_num) (by norm_num)

lemma I_684 : (121289 / 50 : ℝ) < I_fault_A initPS "684" ∧
    I_fault_A initPS "684" < (242579 / 100 : ℝ) :=
  I_fault_A_bounds "684" (240969491321 / 29648025000000) (18030723 / 200000000)
    (5634601 / 62500000) (121289 / 50) (242579 / 100) normSq_684 (by norm_num)
    (by norm_num) (by norm_num) (by norm_num) (by norm_num) (by norm_num) (by norm_num)

lemma I_611 : (212673 / 100 : ℝ) < I_fault_A initPS "611" ∧
    I_fault_A initPS "611" < (106337 / 50 : ℝ) :=
  I_fault_A_bounds "611" (1151519381 / 108900000000) (51415219 / 500000000)
    (102830439 / 1000000000) (212673 / 100) (106337 / 50) normSq_611 (by norm_num)
    (by norm_num) (by norm_num) (by norm_num) (by norm_num) (by norm_num) (by norm_num)

lemma I_652 : (103777 / 50 : ℝ) < I_fault_A initPS "652" ∧
    I_fault_A initPS "652" < (41511 / 20 : ℝ) :=
  I_fault_A_bounds "652" (164578253473 / 14824012500000) (10536669 / 100000000)
    (105366691 / 1000000000) (103777 / 50) (41511 / 20) normSq_652 (by norm_num)
    (by norm_num) (by norm_num) (by norm_num) (by norm_num) (by norm_num) (by norm_num)

lemma I_680 : (8107 / 4 : ℝ) < I_fault_A initPS "680" ∧
    I_fault_A initPS "680" < (50669 / 25 : ℝ) :=
  I_fault_A_bounds "680" (1380779480909 / 118592100000000) (107903189 / 1000000000)
    (10790319 / 100000000) (8107 / 4) (50669 / 25) normSq_680 (by norm_num)
    (by norm_num) (by norm_num) (by norm_num) (by norm_num) (by norm_num) (by norm_num)

/-- Rounding to two decimals preserves a strict order whenever the gap
exceeds one hundredth. -/
lemma round2_lt_round2 (x y : ℝ) (h : x + 1 / 100 < y) : round2 x < round2 y := by
  have hx := abs_sub_round (100 * x)
  have hy := abs_sub_round (100 * y)
  rw [abs_le] at hx hy
  have hz : ((round (100 * x) : ℤ) : ℝ) < ((round (100 * y) : ℤ) : ℝ) := by linarith
  unfold round2
  linarith

lemma c_632_650 : round2 (I_fault_A initPS "632") < round2 (I_fault_A initPS "650") :=
  round2_lt_round2 _ _ (by have a := I_632.2; have b := I_650.1; linarith)

lemma c_645_632 : round2 (I_fault_A initPS "645") < round2 (I_fault_A initPS "632") :=
  round2_lt_round2 _ _ (by have a := I_645.2; have b := I_632.1; linarith)

lemma c_633_645 : round2 (I_fault_A initPS "633") < round2 (I_fault_A initPS "645") :=
  round2_lt_round2 _ _ (by have a := I_633.2; have b := I_645.1; linarith)

lemma c_671_633 : round2 (I_fault_A initPS "671") < round2 (I_fault_A initPS "633") :=
  round2_lt_round2 _ _ (by have a := I_671.2; have b := I_633.1; linarith)

lemma c_634_671 : round2 (I_fault_A initPS "634") < round2 (I_fault_A initPS "671") :=
  round2_lt_round2 _ _ (by have a := I_634.2; have b := I_671.1; linarith)

lemma c_646_634 : round2 (I_fault_A initPS "646") < round2 (I_fault_A initPS "634") :=
  round2_lt_round2 _ _ (by have a := I_646.2; have b := I_634.1; linarith)

lemma c_684_646 : round2 (I_fault_A initPS "684") < round2 (I_fault_A initPS "646") :=
  round2_lt_round2 _ _ (by have a := I_684.2; have b := I_646.1; linarith)

lemma c_611_684 : round2 (I_fault_A initPS "611") < round2 (I_fault_A initPS "684") :=
  round2_lt_round2 _ _ (by have a := I_611.2; have b := I_684.1; linarith)

lemma c_652_611 : round2 (I_fault_A initPS "652") < round2 (I_fault_A initPS "611") :=
  round2_lt_round2 _ _ (by have a := I_652.2; have b := I_611.1; linarith)

lemma c_680_652 : round2 (I_fault_A initPS "680") < round2 (I_fault_A initPS "652") :=
  round2_lt_round2 _ _ (by have a := I_680.2; have b := I_652.1; linarith)

lemma magnitude_eq (bus ft : String) :
    (calculate_fault_current initPS bus ft).magnitude = round2 (I_fault_A initPS bus) :=
  rfl

lemma severity_650 : severity_of (I_fault_A initPS "650") = "CRITICAL" := by
  unfold severity_of
  rw [if_pos (lt_trans (by norm_num : (8000 : ℝ) < 1098919 / 100) I_650.1)]

lemma paths_eq_none (bus : String) (h : bus ∉ knownBuses) : paths bus = none := by
  unfold knownBuses at h
  unfold paths
  split <;> simp_all

lemma nodes_eq_none (bus : String) (h : bus ∉ knownBuses) : nodes bus = none := by
  unfold knownBuses at h
  unfold nodes
  split <;> simp_all

/-! ## Claims -/

/-- C1, counterexample: the fault current solver does not distinguish fault
types; a single-line-to-ground and a three-phase fault at the same bus 632
yield the identical returned magnitude and severity, refuting the claimed
fault-type-specific symmetrical-component formulas. -/
theorem C1_counterexample :
    (calculate_fault_current initPS "632" "SLG").magnitude =
      (calculate_fault_current initPS "632" "3LG").magnitude ∧
    (calculate_fault_current initPS "632" "SLG").severity =
      (calculate_fault_current initPS "632" "3LG").severity :=
  ⟨rfl, rfl⟩

/-- C1, amended: calculate_fault_current ignores the fault type in every
computation; results for two fault types at the same bus are identical
except for the reported type string, the per-unit current being
1/abs(Z_source + Z_path) for every fault type. -/
theorem C1_type_ignored (ps : PowerSystem) (bus fta ftb : String) :
    calculate_fault_current ps bus fta =
      { calculate_fault_current ps bus ftb with type := fta } :=
  rfl

/-- C2, counterexample: a simulated-fault request for the unknown bus name
999 is not rejected; simulate_fault returns a full report whose computed
fault current equals the bus-650 (substation) value and whose severity is
CRITICAL. -/
theorem C2_counterexample :
    "999" ∉ knownBuses ∧
    (simulate_fault "120000" "2025-01-01" "999" "3LG").fault_current =
      (calculate_fault_current initPS "650" "3LG").magnitude ∧
    (simulate_fault "120000" "2025-01-01" "999" "3LG").severity = "CRITICAL" := by
  have hZ : Z_total initPS "999" = Z_total initPS "650" := by
    simp [Z_total, get_path_impedance, pathOf, paths]
  refine ⟨by decide, ?_, ?_⟩
  · show (calculate_fault_current initPS "999" "3LG").magnitude = _
    rw [magnitude_eq, magnitude_eq, I_fault_A, I_fault_A, I_fault_pu, I_fault_pu, hZ]
  · show severity_of (I_fault_A initPS "999") = "CRITICAL"
    rw [I_fault_A, I_fault_pu, hZ, ← I_fault_pu, ← I_fault_A, severity_650]

/-- C2, amended: an unknown bus name is not rejected before computation:
paths.get defaults it to the empty path, so calculate_fault_current treats
it exactly like the substation bus 650, and simulate_fault returns a full
report with the bus-650 fault current and coordinates defaulted to (0, 0). -/
theorem C2_unknown_bus_defaults (bus ft : String) (h : bus ∉ knownBuses) :
    calculate_fault_current initPS bus ft = calculate_fault_current initPS "650" ft ∧
    ∀ t d, (simulate_fault t d bus ft).fault_current =
        (calculate_fault_current initPS "650" ft).magnitude ∧
      (simulate_fault t d bus ft).x = 0 ∧ (simulate_fault t d bus ft).y = 0 := by
  have hp := paths_eq_none bus h
  have hn := nodes_eq_none bus h
  have hbusP : pathOf bus = [] := by unfold pathOf; rw [hp]; rfl
  have h650P : pathOf "650" = [] := rfl
  have hZ : Z_total initPS bus = Z_total initPS "650" := by
    unfold Z_total get_path_impedance
    rw [hbusP, h650P]
  have hP : get_path_impedance initPS bus = get_path_impedance initPS "650" := by
    unfold get_path_impedance
    rw [hbusP, h650P]
  have hcalc : calculate_fault_current initPS bus ft =
      calculate_fault_current initPS "650" ft := by
    unfold calculate_fault_current
    rw [I_fault_A, I_fault_A, I_fault_pu, I_fault_pu, hZ, hP]
  refine ⟨hcalc, fun t d => ⟨?_, ?_, ?_⟩⟩
  · show (calculate_fault_current initPS bus ft).magnitude = _
    rw [hcalc]
  · simp [simulate_fault, hn]
  · simp [simulate_fault, hn]

/-- C2, witness for the amended theorem at the concrete unknown bus 999. -/
theorem C2_witness :
    "999" ∉ knownBuses ∧
    (calculate_fault_current initPS "999" "3LG" =
        calculate_fault_current initPS "650" "3LG" ∧
      ∀ t d, (simulate_fault t d "999" "3LG").fault_current =
          (calculate_fault_current initPS "650" "3LG").magnitude ∧
        (simulate_fault t d "999" "3LG").x = 0 ∧
        (simulate_fault t d "999" "3LG").y = 0) :=
  ⟨by decide, C2_unknown_bus_defaults "999" "3LG" (by decide)⟩

/-- C3: along the radial feeder, whenever the segment path to bus B
strictly extends the path to bus A, the returned (rounded) fault-current
magnitude at B is strictly smaller than at A, and a three-phase fault at
the substation bus 650 attains the maximum magnitude over all known
buses. -/
theorem C3_magnitude_strictly_decreasing :
    (∀ A B, A ∈ knownBuses → B ∈ knownBuses → extendsPath (pathOf A) (pathOf B) →
      ∀ ft, (calculate_fault_current initPS B ft).magnitude <
        (calculate_fault_current initPS A ft).magnitude) ∧
    (∀ B, B ∈ knownBuses →
      (calculate_fault_current initPS B "3LG").magnitude ≤
        (calculate_fault_current initPS "650" "3LG").magnitude) := by
  constructor
  · intro A B hA hB hext ft
    rw [magnitude_eq, magnitude_eq]
    simp only [knownBuses] at hA hB
    fin_cases hA <;> fin_cases hB <;>
      first
        | exact absurd hext (by decide)
        | linarith [c_632_650, c_645_632, c_633_645, c_671_633, c_634_671,
            c_646_634, c_684_646, c_611_684, c_652_611, c_680_652]
  · intro B hB
    rw [magnitude_eq, magnitude_eq]
    simp only [knownBuses] at hB
    fin_cases hB <;>
      first
        | exact le_refl _
        | linarith [c_632_650, c_645_632, c_633_645, c_671_633, c_634_671,
            c_646_634, c_684_646, c_611_684, c_652_611, c_680_652]

lemma lookup_getD_pos (s : String) (d : ℝ) (hd : 0 < d) :
    ∀ (l : List (String × ℝ)), (∀ p ∈ l, 0 < p.2) → 0 < ((l.lookup s).getD d)
  | [], _ => by simpa [List.lookup] using hd
  | (k, v) :: t, h => by
    rw [List.lookup]
    cases hk : (s == k) with
    | true => simpa using h (k, v) (by simp)
    | false =>
      simpa using lookup_getD_pos s d hd t fun p hp => h p (List.mem_cons_of_mem _ hp)

lemma lineLen_pos (seg : String) : 0 < lineLen initPS seg := by
  unfold lineLen
  refine lookup_getD_pos seg 1.0 (by norm_num) initPS.line_lengths ?_
  intro p hp
  simp only [initPS] at hp
  fin_cases hp <;> norm_num

lemma z1_im_pos : 0 < initPS.z1_pu_km.im := by
  simp [initPS, Complex.div_im, Complex.re_ofNat, Complex.im_ofNat]
  norm_num

lemma path_im_mono : ∀ (l : List String) (z : ℂ),
    z.im ≤ (l.foldl (fun w seg => w + initPS.z1_pu_km *
      ((lineLen initPS seg : ℝ) : ℂ)) z).im := by
  intro l
  induction l with
  | nil => intro z; simp
  | cons seg t ih =>
    intro z
    rw [List.foldl_cons]
    refine le_trans ?_ (ih (z + initPS.z1_pu_km * ((lineLen initPS seg : ℝ) : ℂ)))
    have h1 := z1_im_pos
    have h2 := lineLen_pos seg
    simp only [Complex.add_im, Complex.mul_im, Complex.ofReal_im, Complex.ofReal_re]
    nlinarith

lemma Z_total_im_ge (bus : String) : (0.0198 : ℝ) ≤ (Z_total initPS bus).im := by
  have h := path_im_mono (pathOf bus) 0
  have hsrc : initPS.Z_source.im = 0.0198 := by simp [initPS]; norm_num
  simp only [Complex.zero_im] at h
  rw [Z_total, Complex.add_im, hsrc, get_path_impedance]
  linarith

lemma Z_total_abs_ge (bus : String) : (0.0198 : ℝ) ≤ Complex.abs (Z_total initPS bus) := by
  have h1 := Z_total_im_ge bus
  have h2 := Complex.abs_im_le_abs (Z_total initPS bus)
  have h3 : |(Z_total initPS bus).im| = (Z_total initPS bus).im :=
    abs_of_nonneg (le_trans (by norm_num) h1)
  linarith [h3 ▸ h2]

/-- C4, counterexample: at an input whose total impedance magnitude is
under the 1e-6 floor (source impedance zeroed, fault at the substation),
the solver does not report a distinct failure result: it returns an
ordinary FaultResult with magnitude 0 A and severity INFO, the same record
shape every other input produces. -/
theorem C4_counterexample :
    Complex.abs (Z_total { initPS with Z_source := 0 } "650") < 1e-6 ∧
    calculate_fault_current { initPS with Z_source := 0 } "650" "3LG" =
      { magnitude := 0, severity := "INFO", impedance_pu := 0, type := "3LG",
        voltage_drop_pct := 0 } := by
  have habs : Complex.abs (Z_total { initPS with Z_source := 0 } "650") = 0 := by
    have hz : Z_total { initPS with Z_source := 0 } "650" = 0 := by
      unfold Z_total get_path_impedance
      rw [show pathOf "650" = [] from rfl]
      simp
    rw [hz, map_zero]
  have hguard : Complex.abs (Z_total { initPS with Z_source := 0 } "650") < 1e-6 := by
    rw [habs]; norm_num
  refine ⟨hguard, ?_⟩
  have hpu : I_fault_pu { initPS with Z_source := 0 } "650" = 0 := by
    rw [I_fault_pu, if_pos hguard]
  have hIA : I_fault_A { initPS with Z_source := 0 } "650" = 0 := by
    rw [I_fault_A, hpu, zero_mul]
  unfold calculate_fault_current
  rw [hIA, hpu]
  have hpath : Complex.abs (get_path_impedance { initPS with Z_source := 0 } "650") = 0 := by
    unfold get_path_impedance
    rw [show pathOf "650" = [] from rfl]
    simp
  rw [hpath, habs]
  unfold severity_of round2 round4
  norm_num

/-- C4, amended: the solver guards the division (no division by zero and
no NaN/Inf): whenever the denominator magnitude is under the 1e-6 floor it
sets the per-unit current to 0 and returns an ordinary result of magnitude
0 A with severity INFO — there is no distinct solver-failure result.
Moreover, for the engine as constructed the guard is unreachable: every
bus name, known or not, yields a denominator magnitude of at least
0.0198 pu. -/
theorem C4_degenerate_guard :
    (∀ ps bus ft, Complex.abs (Z_total ps bus) < 1e-6 →
      (calculate_fault_current ps bus ft).magnitude = 0 ∧
      (calculate_fault_current ps bus ft).severity = "INFO") ∧
    (∀ bus, ¬ Complex.abs (Z_total initPS bus) < 1e-6) := by
  constructor
  · intro ps bus ft hguard
    have hpu : I_fault_pu ps bus = 0 := by rw [I_fault_pu, if_pos hguard]
    have hIA : I_fault_A ps bus = 0 := by rw [I_fault_A, hpu, zero_mul]
    unfold calculate_fault_current
    rw [hIA]
    constructor
    · show round2 0 = 0
      unfold round2; norm_num
    · show severity_of 0 = "INFO"
      unfold severity_of; norm_num
  · intro bus
    exact not_lt.2 (le_trans (by norm_num) (Z_total_abs_ge bus))

/-- C4, witness: the guard branch instantiated at the zeroed-source input,
and unreachability instantiated at bus 650. -/
theorem C4_witness :
    ((calculate_fault_current { initPS with Z_source := 0 } "650" "3LG").magnitude = 0 ∧
      (calculate_fault_current { initPS with Z_source := 0 } "650" "3LG").severity =
        "INFO") ∧
    ¬ Complex.abs (Z_total initPS "650") < 1e-6 := by
  have hz : Z_total { initPS with Z_source := 0 } "650" = 0 := by
    unfold Z_total get_path_impedance
    rw [show pathOf "650" = [] from rfl]
    simp
  have hguard : Complex.abs (Z_total { initPS with Z_source := 0 } "650") < 1e-6 := by
    rw [hz, map_zero]; norm_num
  exact ⟨C4_degenerate_guard.1 { initPS with Z_source := 0 } "650" "3LG" hguard,
    C4_degenerate_guard.2 "650"⟩

/-- C3, witness: concrete instantiation at the pair 650/632 and at bus
680. -/
theorem C3_witness :
    ("650" ∈ knownBuses ∧ "632" ∈ knownBuses ∧
      extendsPath (pathOf "650") (pathOf "632") ∧
      (calculate_fault_current initPS "632" "3LG").magnitude <
        (calculate_fault_current initPS "650" "3LG").magnitude) ∧
    ("680" ∈ knownBuses ∧
      (calculate_fault_current initPS "680" "3LG").magnitude ≤
        (calculate_fault_current initPS "650" "3LG").magnitude) :=
  ⟨⟨by decide, by decide, by decide,
      C3_magnitude_strictly_decreasing.1 "650" "632" (by decide) (by decide)
        (by decide) "3LG"⟩,
    ⟨by decide, C3_magnitude_strictly_decreasing.2 "680" (by decide)⟩⟩

lemma normSq_Z_source : Complex.normSq initPS.Z_source = 0.0004 * 0.9901 := by
  simp [initPS, Complex.normSq_mk]
  norm_num

/-- C6, counterexample: the constructed source impedance magnitude is not
exactly 0.02 pu: the code scales the unnormalised direction (0.1, 0.99),
whose norm is sqrt(0.9901), by 0.02. -/
theorem C6_counterexample : Complex.abs initPS.Z_source ≠ 0.02 := by
  intro h
  have h2 : Complex.normSq initPS.Z_source = 0.0004 := by
    rw [← Complex.sq_abs, h]; norm_num
  rw [normSq_Z_source] at h2
  norm_num at h2

/-- C6, amended: the source impedance magnitude is 0.02 * sqrt(0.9901) pu
(about 0.019901 pu, not exactly 0.02), and its phase angle is
atan2(0.99, 0.1) = arctan(0.99 / 0.1) as claimed. -/
theorem C6_source_impedance :
    Complex.abs initPS.Z_source = 0.02 * Real.sqrt 0.9901 ∧
    Complex.arg initPS.Z_source = Real.arctan (0.99 / 0.1) := by
  have hsqrt4 : Real.sqrt 0.0004 = 0.02 := by
    rw [show (0.0004 : ℝ) = 0.02 ^ 2 by norm_num, Real.sqrt_sq (by norm_num)]
  have habs : Complex.abs initPS.Z_source = 0.02 * Real.sqrt 0.9901 := by
    rw [Complex.abs_apply, normSq_Z_source,
      Real.sqrt_mul (by norm_num : (0 : ℝ) ≤ 0.0004), hsqrt4]
  refine ⟨habs, ?_⟩
  have hre : (0 : ℝ) ≤ initPS.Z_source.re := by simp [initPS]; norm_num
  have him : initPS.Z_source.im = 0.0198 := by simp [initPS]; norm_num
  have hspos : (0 : ℝ) < Real.sqrt 0.9901 := Real.sqrt_pos.2 (by norm_num)
  have hs100 : Real.sqrt 99.01 = 10 * Real.sqrt 0.9901 := by
    rw [show (99.01 : ℝ) = 100 * 0.9901 by norm_num,
      Real.sqrt_mul (by norm_num : (0 : ℝ) ≤ 100),
      show (100 : ℝ) = 10 ^ 2 by norm_num, Real.sqrt_sq (by norm_num)]
  rw [Complex.arg, if_pos hre, him, habs,
    show (0.99 / 0.1 : ℝ) = 9.9 by norm_num, Real.arctan_eq_arcsin]
  congr 1
  rw [show (1 + (9.9 : ℝ) ^ 2) = 99.01 by norm_num, hs100]
  rw [div_eq_div_iff (by positivity) (by positivity)]
  ring

/-- C7: the per-unit base derived at construction satisfies the invariant
baseImpedanceOhm = lineToLineVoltsRMS^2 / apparentPowerBaseVA with a
strictly positive value (34.848 ohm from 13200 V and 5 MVA), and no engine
operation mutates the constructed base values. -/
theorem C7_base_invariant :
    initPS.Z_base = initPS.V_LL ^ 2 / initPS.S_base ∧
    0 < initPS.Z_base ∧ initPS.Z_base = 34.848 ∧
    initPS.V_LL = 13200 ∧ initPS.S_base = 5e6 ∧
    ∀ bus ft, (calcFC initPS bus ft).2.Z_base = initPS.Z_base ∧
      (calcFC initPS bus ft).2.V_LL = initPS.V_LL ∧
      (calcFC initPS bus ft).2.S_base = initPS.S_base ∧
      (calcFC initPS bus ft).2.I_base = initPS.I_base := by
  refine ⟨by simp [initPS], ?_, ?_, by simp [initPS], by simp [initPS],
    fun bus ft => ⟨rfl, rfl, rfl, rfl⟩⟩
  · simp [initPS]; norm_num
  · simp [initPS]; norm_num

/-- C8: the fault-current computation is deterministic and stateless: a
method call leaves the engine state unchanged, and a second call with the
same arguments on the post-state returns the same result. -/
theorem C8_deterministic_stateless (ps : PowerSystem) (bus ft : String) :
    (calcFC ps bus ft).2 = ps ∧
    (calcFC (calcFC ps bus ft).2 bus ft).1 = (calcFC ps bus ft).1 :=
  ⟨rfl, rfl⟩

lemma severity_of_iff (I : ℝ) :
    (severity_of I = "CRITICAL" ↔ 8000 < I) ∧
    (severity_of I = "WARNING" ↔ 5000 < I ∧ I ≤ 8000) ∧
    (severity_of I = "CAUTION" ↔ 3000 < I ∧ I ≤ 5000) ∧
    (severity_of I = "INFO" ↔ I ≤ 3000) := by
  unfold severity_of
  split_ifs with h1 h2 h3 <;>
    refine ⟨?_, ?_, ?_, ?_⟩ <;> constructor <;> intro hx <;>
      first
        | rfl
        | (exact absurd hx (by decide))
        | exact h1
        | exact ⟨h2, le_of_not_lt h1⟩
        | exact ⟨h3, le_of_not_lt h2⟩
        | exact le_of_not_lt h3
        | (exact absurd hx.1 (by linarith))
        | (exact absurd hx (by linarith))

/-- C9: the severity field of calculate_fault_current is determined by the
unrounded ampere magnitude through the fixed exclusive thresholds: CRITICAL
above 8000 A, WARNING in (5000, 8000], CAUTION in (3000, 5000], INFO at or
below 3000 A. -/
theorem C9_severity_thresholds (ps : PowerSystem) (bus ft : String) :
    ((calculate_fault_current ps bus ft).severity = "CRITICAL" ↔
      8000 < I_fault_A ps bus) ∧
    ((calculate_fault_current ps bus ft).severity = "WARNING" ↔
      5000 < I_fault_A ps bus ∧ I_fault_A ps bus ≤ 8000) ∧
    ((calculate_fault_current ps bus ft).severity = "CAUTION" ↔
      3000 < I_fault_A ps bus ∧ I_fault_A ps bus ≤ 5000) ∧
    ((calculate_fault_current ps bus ft).severity = "INFO" ↔
      I_fault_A ps bus ≤ 3000) :=
  severity_of_iff (I_fault_A ps bus)

lemma bestRow_nil (ref : LookupRow → ℚ) (obs : ℚ) : bestRow ref obs [] = none := rfl

lemma bestRow_cons (ref : LookupRow → ℚ) (obs : ℚ) (r : LookupRow)
    (rs : List LookupRow) :
    bestRow ref obs (r :: rs) =
      match bestRow ref obs rs with
      | none => some r
      | some b => if |ref b - obs| < |ref r - obs| then some b else some r := rfl

lemma bestRow_none (ref : LookupRow → ℚ) (obs : ℚ) :
    ∀ l : List LookupRow, bestRow ref obs l = none ↔ l = [] := by
  intro l
  cases l with
  | nil => simp [bestRow_nil]
  | cons r rs =>
    rw [bestRow_cons]
    cases h : bestRow ref obs rs with
    | none =>
      simp only [h]
      constructor
      · intro hc
        exact absurd hc (by simp)
      · intro hc
        exact absurd hc (by simp)
    | some b =>
      simp only [h]
      constructor
      · intro hc
        split at hc <;> exact absurd hc (by simp)
      · intro hc
        exact absurd hc (by simp)

lemma bestRow_spec (ref : LookupRow → ℚ) (obs : ℚ) :
    ∀ (l : List LookupRow) (b : LookupRow), bestRow ref obs l = some b →
      ∃ l₁ l₂, l = l₁ ++ b :: l₂ ∧
        (∀ x ∈ l₁, |ref b - obs| < |ref x - obs|) ∧
        (∀ x ∈ l₂, |ref b - obs| ≤ |ref x - obs|) := by
  intro l
  induction l with
  | nil => intro b h; simp [bestRow] at h
  | cons r rs ih =>
    intro b h
    rw [bestRow_cons] at h
    cases hrec : bestRow ref obs rs with
    | none =>
      simp only [hrec] at h
      have hb : r = b := by injection h
      have hnil : rs = [] := (bestRow_none ref obs rs).1 hrec
      subst hb
      subst hnil
      exact ⟨[], [], rfl, by simp, by simp⟩
    | some b0 =>
      simp only [hrec] at h
      obtain ⟨l₁, l₂, heq, h1, h2⟩ := ih b0 hrec
      by_cases hcmp : |ref b0 - obs| < |ref r - obs|
      · rw [if_pos hcmp] at h
        have hb : b0 = b := by injection h
        subst hb
        refine ⟨r :: l₁, l₂, by rw [heq, List.cons_append], ?_, h2⟩
        intro x hx
        rcases List.mem_cons.1 hx with hx | hx
        · rw [hx]; exact hcmp
        · exact h1 x hx
      · rw [if_neg hcmp] at h
        have hb : r = b := by injection h
        subst hb
        have hrb : |ref r - obs| ≤ |ref b0 - obs| := le_of_not_lt hcmp
        refine ⟨[], rs, rfl, by simp, ?_⟩
        intro x hx
        rw [heq] at hx
        rcases List.mem_append.1 hx with hx | hx
        · exact le_trans hrb (le_of_lt (h1 x hx))
        · rcases List.mem_cons.1 hx with hx | hx
          · rw [hx]; exact hrb
          · exact le_trans hrb (h2 x hx)

/-- C5: the distance locator scans only rows with distanceKm at or beyond
the origin sensor distance, returns NotFound (none) exactly when that
restricted set is empty, and otherwise returns the observed magnitude
together with the distance of a restricted row of minimal absolute
reference-current difference, earlier rows of the scan being strictly
worse (first-occurrence tie-breaking). -/
theorem C5_distance_locator (table : List LookupRow) (ref : LookupRow → ℚ)
    (obs origin : ℚ) :
    (locate table ref obs origin = none ↔
      table.filter (fun r => origin ≤ r.distanceKm) = []) ∧
    (∀ d a, locate table ref obs origin = some (d, a) →
      a = obs ∧
      ∃ l₁ b l₂,
        table.filter (fun r => origin ≤ r.distanceKm) = l₁ ++ b :: l₂ ∧
        b.distanceKm = d ∧ origin ≤ b.distanceKm ∧
        (∀ x ∈ l₁, |ref b - obs| < |ref x - obs|) ∧
        (∀ x ∈ l₂, |ref b - obs| ≤ |ref x - obs|)) := by
  unfold locate
  cases hb : bestRow ref obs (table.filter fun r => origin ≤ r.distanceKm) with
  | none =>
    simp only [hb]
    refine ⟨?_, fun d a h => absurd h (by simp)⟩
    simp [(bestRow_none ref obs _).1 hb]
  | some b =>
    simp only [hb]
    constructor
    · constructor
      · intro h
        exact absurd h (by simp)
      · intro h
        rw [h] at hb
        simp [bestRow] at hb
    · intro d a h
      have hda : b.distanceKm = d ∧ obs = a := by
        have h2 := Option.some.inj h
        exact ⟨congrArg Prod.fst h2, congrArg Prod.snd h2⟩
      obtain ⟨l₁, l₂, heq, h1, h2⟩ := bestRow_spec ref obs _ b hb
      have hmem : b ∈ table.filter (fun r => origin ≤ r.distanceKm) := by
        rw [heq]; simp
      have hor : origin ≤ b.distanceKm := by
        have hm := List.mem_filter.1 hmem
        simpa using hm.2
      exact ⟨hda.2.symm, l₁, b, l₂, heq, hda.1, hor, h1, h2⟩

/-- A concrete four-row lookup table used to witness the locator. -/
def tab5 : List LookupRow :=
  [⟨0, 10, 0, 0⟩, ⟨1, 8, 0, 0⟩, ⟨2, 6, 0, 0⟩, ⟨3, 4, 0, 0⟩]

lemma locate_tab5 : locate tab5 LookupRow.iaAmps 7 (3 / 2) = some (2, 7) := by
  have hfilter : tab5.filter (fun r => (3 / 2 : ℚ) ≤ r.distanceKm) =
      [⟨2, 6, 0, 0⟩, ⟨3, 4, 0, 0⟩] := by
    simp [tab5]
    norm_num
  have hb1 : bestRow LookupRow.iaAmps 7 [(⟨3, 4, 0, 0⟩ : LookupRow)] =
      some ⟨3, 4, 0, 0⟩ := by
    rw [bestRow_cons, bestRow_nil]
  have hbest : bestRow LookupRow.iaAmps 7 [⟨2, 6, 0, 0⟩, ⟨3, 4, 0, 0⟩] =
      some ⟨2, 6, 0, 0⟩ := by
    rw [bestRow_cons, hb1]
    norm_num
  unfold locate
  rw [hfilter]
  simp [hbest]

/-- C5, witness: locating an observed reference magnitude of 7 A from a
sensor at 1.5 km over tab5 returns the 2 km row (rows at 0 and 1 km are
excluded as upstream even though the 1 km row is numerically closer). -/
theorem C5_witness :
    locate tab5 LookupRow.iaAmps 7 (3 / 2) = some (2, 7) ∧
    ((7 : ℚ) = 7 ∧
      ∃ l₁ b l₂,
        tab5.filter (fun r => (3 / 2 : ℚ) ≤ r.distanceKm) = l₁ ++ b :: l₂ ∧
        b.distanceKm = 2 ∧ (3 / 2 : ℚ) ≤ b.distanceKm ∧
        (∀ x ∈ l₁, |b.iaAmps - 7| < |x.iaAmps - 7|) ∧
        (∀ x ∈ l₂, |b.iaAmps - 7| ≤ |x.iaAmps - 7|)) :=
  ⟨locate_tab5,
    C5_distance_locator tab5 LookupRow.iaAmps 7 (3 / 2) |>.2 2 7 locate_tab5⟩

lemma fetchLoop_eq (fp : String → Option ℚ) (now : NowStamps) :
    ∀ (rows : List (List (String × String))) (data : List FetchedFault),
      fetchLoop fp now rows data = data ++ rows.filterMap (parse_row fp now) := by
  intro rows
  induction rows with
  | nil => intro data; simp [fetchLoop]
  | cons r rs ih =>
    intro data
    simp only [fetchLoop]
    cases h : parse_row fp now r with
    | none => simp [h, ih, List.filterMap_cons]
    | some f => simp [h, ih, List.filterMap_cons]

/-- C10: fetch_data is atomic on error and skip-tolerant on success: an
exception outcome returns the previous cache and leaves the connector
state (cache and last-fetch timestamp) unchanged, while a successful fetch
returns exactly the in-order parses of the rows (rows failing to parse are
skipped without aborting), replaces the cache with that full list only
after the loop, and sets the last-fetch timestamp. -/
theorem C10_fetch_atomicity (fp : String → Option ℚ) (c : Connector)
    (now : NowStamps) :
    (∀ e, fetch_data fp c (Except.error e) now = (c.cache, c)) ∧
    (∀ rows,
      (fetch_data fp c (Except.ok rows) now).1 =
        rows.filterMap (parse_row fp now) ∧
      (fetch_data fp c (Except.ok rows) now).2.cache =
        rows.filterMap (parse_row fp now) ∧
      (fetch_data fp c (Except.ok rows) now).2.last_fetch = some now.iso) := by
  refine ⟨fun e => rfl, fun rows => ?_⟩
  simp [fetch_data, fetchLoop_eq]

end OverWatch
